import Mathlib

/-!
Verification of the message-handling pipeline of a small WhatsApp bot
(single module `agentic-whatsapp-agent.py`).

The Python module is embedded shallowly:

* Configuration (`persona_config.json`, loaded into the module-level
  `config` dict) becomes the `Config` structure.
* External collaborators — the OpenAI chat-completions endpoint and the
  Twilio `client.messages.create` call — are opaque network services.
  They are modelled as oracle functions into `Except PyExc _`: a `.error`
  value stands for the Python call raising an exception.
* A Python function that may raise is embedded as a function returning
  `Except PyExc _`; `try`/`except` becomes `pyTry`.
* Side effects are made explicit: `logger.*` calls are collected in a
  `List LogEntry`, LLM provider requests in a `List OpenAIRequest`, and
  Twilio send attempts in a `List TwilioRequest`, all carried in the
  result structures (`GenResult`, `SendResult`, `HandleResult`).
* Python string truthiness (`if s:` / `x or y`) is modelled by
  `pyTruthyStr` / `pyOrString`; `s.strip()` by `pyStrip`; `s[:n]` by
  `pySlice`; `s.lower()` by `pyLower` (character-wise, as for the ASCII
  selector values the code compares against).
* The `temperature` float from the persona section is carried as `Rat`;
  no verified property computes with it.
-/

/-- A Python exception, abstracted to its message. -/
abbrev PyExc := String

inductive LogLevel where
  | info
  | warning
  | error
deriving DecidableEq, Repr

abbrev LogEntry := LogLevel × String

/-- Python `try: body except Exception as e: handler e`. -/
def pyTry {α : Type} (body : Except PyExc α) (handler : PyExc → Except PyExc α) :
    Except PyExc α :=
  match body with
  | .ok a => .ok a
  | .error e => handler e

/-- Python truthiness of an optional string: `None` and `""` are falsy. -/
def pyTruthyStr : Option String → Bool
  | none => false
  | some s => !(s = "")

/-- Python `x or d` for `x : Optional[str]`: `None` and `""` fall through to `d`. -/
def pyOrString (x : Option String) (d : String) : String :=
  match x with
  | none => d
  | some s => if s = "" then d else s

/-- Python `s.lower()`, character-wise. -/
def pyLower (s : String) : String :=
  ⟨s.data.map Char.toLower⟩

/-- Python slicing `s[:n]`. -/
def pySlice (s : String) (n : Nat) : String :=
  ⟨s.data.take n⟩

/-- Python `s.strip()`: remove leading and trailing whitespace. -/
def pyStrip (s : String) : String :=
  ⟨((s.data.dropWhile Char.isWhitespace).reverse.dropWhile
      Char.isWhitespace).reverse⟩

/-- The `persona` section of `persona_config.json`. -/
structure Persona where
  name : String
  description : String
  system_prompt : String
  temperature : Rat
  max_tokens : Nat
deriving DecidableEq

/-- The `settings` section of `persona_config.json`. -/
structure Settings where
  llm_backend : String
  model : String
  fallback_response : String
  enable_logging : Bool
  log_level : String
deriving DecidableEq

/-- The `twilio` section of `persona_config.json`. -/
structure TwilioSection where
  whatsapp_number : String
  recipient_number : String
deriving DecidableEq

/-- The module-level `config` dict, loaded once at import. -/
structure Config where
  persona : Persona
  settings : Settings
  twilio : TwilioSection
deriving DecidableEq

/-- One entry of the `messages` list sent to the chat-completions API. -/
structure ChatMessage where
  role : String
  content : String
deriving DecidableEq

/-- The argument record of `openai_client.chat.completions.create(...)`. -/
structure OpenAIRequest where
  model : String
  messages : List ChatMessage
  temperature : Rat
  max_tokens : Nat
deriving DecidableEq

/-- The argument record of `client.messages.create(...)` (Twilio). -/
structure TwilioRequest where
  from_ : String
  body : String
  «to» : String
deriving DecidableEq

/-- The fields of the Twilio message object used by the code: `.sid` and `.body`. -/
structure TwilioMessage where
  sid : String
  body : String
deriving DecidableEq

/-- Errors `load_persona_config` re-raises: `FileNotFoundError` and
`json.JSONDecodeError`. -/
inductive ConfigLoadError where
  | fileNotFoundError (path : String)
  | jsonDecodeError (msg : String)
deriving DecidableEq

/-- `load_persona_config(config_path)`: opens the file and parses it as JSON.
The file system is the oracle `readFile` (`none` = `FileNotFoundError` on
`open`), JSON parsing is the oracle `jsonParse` (`.error` =
`json.JSONDecodeError`). Either failure is printed and re-raised; the list of
`print` outputs is returned alongside. The Python default for `config_path`
is `"persona_config.json"`. -/
def load_persona_config {α : Type} (readFile : String → Option String)
    (jsonParse : String → Except String α) (config_path : String) :
    Except ConfigLoadError α × List String :=
  match readFile config_path with
  | none =>
      (.error (.fileNotFoundError config_path),
       ["Error: Configuration file \x27" ++ config_path ++ "\x27 not found."])
  | some content =>
      match jsonParse content with
      | .error e =>
          (.error (.jsonDecodeError e),
           ["Error: Invalid JSON in configuration file \x27" ++ config_path
              ++ "\x27: " ++ e])
      | .ok cfg => (.ok cfg, [])

/-- The strategy object produced by `get_llm_backend`: one constructor per
`LLMBackend` subclass, carrying the constructor arguments
`(model, temperature, max_tokens)`. -/
inductive LLMBackend where
  | openai (model : String) (temperature : Rat) (max_tokens : Nat)
  | groq (model : String) (temperature : Rat) (max_tokens : Nat)
  | huggingface (model : String) (temperature : Rat) (max_tokens : Nat)
deriving DecidableEq

/-- `get_llm_backend()`: reads `settings.llm_backend`, lowercases it, and
selects the backend class; unknown values log a warning and default to
OpenAI. Returns the backend together with the warning log entries. -/
def get_llm_backend (cfg : Config) : LLMBackend × List LogEntry :=
  let backend_type := pyLower cfg.settings.llm_backend
  let model := cfg.settings.model
  let temperature := cfg.persona.temperature
  let max_tokens := cfg.persona.max_tokens
  if backend_type = "openai" then
    (.openai model temperature max_tokens, [])
  else if backend_type = "groq" then
    (.groq model temperature max_tokens, [])
  else if backend_type = "huggingface" then
    (.huggingface model temperature max_tokens, [])
  else
    (.openai model temperature max_tokens,
     [(LogLevel.warning,
       "Unknown backend type: " ++ backend_type ++ ". Defaulting to OpenAI.")])

/-- Result of a `generate_response` / `generate_ai_response` call: the
returned string, the `logger` entries emitted, and the chat-completion
requests issued to the provider. -/
structure GenResult where
  text : String
  logs : List LogEntry
  calls : List OpenAIRequest
deriving DecidableEq

/-- The `messages` list built by `OpenAIBackend.generate_response`: the system
prompt is appended only when truthy (`if system_prompt:`), then the user
message. -/
def buildMessages (message : String) (system_prompt : Option String) :
    List ChatMessage :=
  (if pyTruthyStr system_prompt then
     [⟨"system", system_prompt.getD ""⟩]
   else []) ++ [⟨"user", message⟩]

/-- `OpenAIBackend.generate_response(message, system_prompt)`: builds the
message list, calls the chat-completions oracle `api`, and returns the
stripped content; any exception is caught, logged, and replaced by
`config.settings.fallback_response`. -/
def OpenAIBackend.generate_response (cfg : Config)
    (api : OpenAIRequest → Except PyExc String)
    (model : String) (temperature : Rat) (max_tokens : Nat)
    (message : String) (system_prompt : Option String) :
    Except PyExc GenResult :=
  let req : OpenAIRequest :=
    ⟨model, buildMessages message system_prompt, temperature, max_tokens⟩
  pyTry
    (match api req with
     | .error e => .error e
     | .ok content => .ok ⟨pyStrip content, [], [req]⟩)
    (fun e =>
      .ok ⟨cfg.settings.fallback_response,
           [(LogLevel.error, "OpenAI API error: " ++ e)], [req]⟩)

/-- `GroqBackend.generate_response`: unimplemented stub, returns a fixed
string with no provider call and no logging. -/
def GroqBackend.generate_response (_message : String)
    (_system_prompt : Option String) : Except PyExc GenResult :=
  .ok ⟨"Groq backend not yet implemented. Please use OpenAI backend.", [], []⟩

/-- `HuggingFaceBackend.generate_response`: unimplemented stub, returns a
fixed string with no provider call and no logging. -/
def HuggingFaceBackend.generate_response (_message : String)
    (_system_prompt : Option String) : Except PyExc GenResult :=
  .ok ⟨"Hugging Face backend not yet implemented. Please use OpenAI backend.",
       [], []⟩

/-- Virtual dispatch of `generate_response` over the backend object. -/
def LLMBackend.generate_response (cfg : Config)
    (api : OpenAIRequest → Except PyExc String) (b : LLMBackend)
    (message : String) (system_prompt : Option String) :
    Except PyExc GenResult :=
  match b with
  | .openai model temperature max_tokens =>
      OpenAIBackend.generate_response cfg api model temperature max_tokens
        message system_prompt
  | .groq _ _ _ => GroqBackend.generate_response message system_prompt
  | .huggingface _ _ _ =>
      HuggingFaceBackend.generate_response message system_prompt

/-- Result of `send_whatsapp_message`: the returned Python bool, the
`logger` entries emitted, and the Twilio `messages.create` calls attempted. -/
structure SendResult where
  delivered : Bool
  logs : List LogEntry
  attempts : List TwilioRequest
deriving DecidableEq

/-- `send_whatsapp_message(body, to_number=None)`: coalesces the recipient
with Python `or` against `config.twilio.recipient_number`, calls the Twilio
oracle `twilioCreate`, logs a preview on success when logging is enabled, and
returns `True`; any exception is caught, logged, and turned into `False`. -/
def send_whatsapp_message (cfg : Config)
    (twilioCreate : TwilioRequest → Except PyExc TwilioMessage)
    (body : String) (to_number : Option String) : Except PyExc SendResult :=
  let recipient := pyOrString to_number cfg.twilio.recipient_number
  let req : TwilioRequest := ⟨cfg.twilio.whatsapp_number, body, recipient⟩
  pyTry
    (match twilioCreate req with
     | .error e => .error e
     | .ok message =>
        .ok ⟨true,
             if cfg.settings.enable_logging then
               [(LogLevel.info,
                 "Sent message: " ++ pySlice message.body 50 ++ "... (SID: "
                   ++ message.sid ++ ")")]
             else [],
             [req]⟩)
    (fun e =>
      .ok ⟨false,
           [(LogLevel.error, "Failed to send WhatsApp message: " ++ e)],
           [req]⟩)

/-- `generate_ai_response(user_message)`: fetches the persona system prompt,
calls the configured backend, optionally logs, and returns the response; any
exception is caught, logged, and replaced by the fallback response. -/
def generate_ai_response (cfg : Config)
    (api : OpenAIRequest → Except PyExc String) (backend : LLMBackend)
    (user_message : String) : Except PyExc GenResult :=
  pyTry
    (match LLMBackend.generate_response cfg api backend user_message
        (some cfg.persona.system_prompt) with
     | .error e => .error e
     | .ok r =>
        .ok { r with
              logs :=
                if cfg.settings.enable_logging then
                  r.logs ++
                    [(LogLevel.info,
                      "Generated response for message: \x27"
                        ++ pySlice user_message 30 ++ "...\x27")]
                else r.logs })
    (fun e =>
      .ok ⟨cfg.settings.fallback_response,
           [(LogLevel.error, "Failed to generate AI response: " ++ e)], []⟩)

/-- Result of one `handle_incoming_message` invocation (the Python function
returns `None`; everything observable is its side effects). -/
structure HandleResult where
  logs : List LogEntry
  llmCalls : List OpenAIRequest
  sendAttempts : List TwilioRequest
deriving DecidableEq

/-- `handle_incoming_message(user_message, from_number=None)`: logs receipt,
generates an AI response, sends it back, and logs the outcome. This function
has no `try`/`except` of its own, so an exception from either callee would
propagate (`.error`). -/
def handle_incoming_message (cfg : Config)
    (api : OpenAIRequest → Except PyExc String)
    (twilioCreate : TwilioRequest → Except PyExc TwilioMessage)
    (backend : LLMBackend) (user_message : String)
    (from_number : Option String) : Except PyExc HandleResult :=
  let l0 : List LogEntry :=
    [(LogLevel.info,
      "Received message: \x27" ++ pySlice user_message 50 ++ "...\x27")]
  match generate_ai_response cfg api backend user_message with
  | .error e => .error e
  | .ok g =>
      match send_whatsapp_message cfg twilioCreate g.text from_number with
      | .error e => .error e
      | .ok s =>
          let l3 : List LogEntry :=
            if s.delivered then
              [(LogLevel.info, "Response sent successfully")]
            else
              [(LogLevel.error, "Failed to send response")]
          .ok ⟨l0 ++ g.logs ++ s.logs ++ l3, g.calls, s.attempts⟩

/-- A concrete configuration used for witnesses and counterexamples,
shaped like the `persona_config.json` the code expects. -/
def cfgEx : Config :=
  { persona :=
      { name := "WhatsApp Agent"
        description := "A helpful WhatsApp assistant"
        system_prompt := "You are a helpful assistant."
        temperature := 7 / 10
        max_tokens := 150 }
    settings :=
      { llm_backend := "openai"
        model := "gpt-3.5-turbo"
        fallback_response := "Sorry, I am having trouble right now."
        enable_logging := true
        log_level := "INFO" }
    twilio :=
      { whatsapp_number := "whatsapp:+14155238886"
        recipient_number := "whatsapp:+15550001111" } }

/-- `cfgEx` with logging disabled. -/
def cfgNoLog : Config :=
  { cfgEx with settings := { cfgEx.settings with enable_logging := false } }

/-- `cfgEx` with a mixed-case backend selector. -/
def cfgCased : Config :=
  { cfgEx with settings := { cfgEx.settings with llm_backend := "OpenAI" } }

/-- `cfgEx` selecting the Groq backend. -/
def cfgGroq : Config :=
  { cfgEx with settings := { cfgEx.settings with llm_backend := "groq" } }

/-- `cfgEx` selecting the Hugging Face backend. -/
def cfgHF : Config :=
  { cfgEx with settings := { cfgEx.settings with llm_backend := "HuggingFace" } }

/-- `cfgEx` with an unrecognized backend selector. -/
def cfgBad : Config :=
  { cfgEx with settings := { cfgEx.settings with llm_backend := "mistral" } }

/-- A concrete file system for the configuration-loader witnesses. -/
def readFileEx : String → Option String := fun p =>
  if p = "persona_config.json" then some "42"
  else if p = "broken.json" then some "not json"
  else none

/-- A concrete JSON parser for the configuration-loader witnesses. -/
def jsonParseEx : String → Except String Nat := fun s =>
  if s = "42" then .ok 42
  else .error "Expecting value: line 1 column 1 (char 0)"

/-- Helper: `send_whatsapp_message` always returns `.ok` (the whole body is
inside `try`/`except`) and attempts exactly one provider call, addressed to
the `or`-coalesced recipient. -/
theorem send_whatsapp_message_ok (cfg : Config)
    (twilioCreate : TwilioRequest → Except PyExc TwilioMessage)
    (body : String) (to_number : Option String) :
    ∃ s, send_whatsapp_message cfg twilioCreate body to_number = .ok s ∧
      s.attempts =
        [⟨cfg.twilio.whatsapp_number, body,
          pyOrString to_number cfg.twilio.recipient_number⟩] := by
  cases h : twilioCreate ⟨cfg.twilio.whatsapp_number, body,
      pyOrString to_number cfg.twilio.recipient_number⟩ with
  | error e =>
      refine ⟨⟨false,
        [(LogLevel.error, "Failed to send WhatsApp message: " ++ e)],
        [⟨cfg.twilio.whatsapp_number, body,
          pyOrString to_number cfg.twilio.recipient_number⟩]⟩, ?_, rfl⟩
      simp only [send_whatsapp_message, pyTry, h]
  | ok m =>
      refine ⟨⟨true,
        if cfg.settings.enable_logging then
          [(LogLevel.info,
            "Sent message: " ++ pySlice m.body 50 ++ "... (SID: " ++ m.sid ++ ")")]
        else [],
        [⟨cfg.twilio.whatsapp_number, body,
          pyOrString to_number cfg.twilio.recipient_number⟩]⟩, ?_, rfl⟩
      simp only [send_whatsapp_message, pyTry, h]

/-- Helper: `generate_ai_response` always returns `.ok` (every failure path
of the backend is absorbed by `try`/`except`), and under the OpenAI backend
it issues exactly one chat-completion request carrying the user message and
the persona system prompt. -/
theorem generate_ai_response_ok (cfg : Config)
    (api : OpenAIRequest → Except PyExc String) (backend : LLMBackend)
    (user_message : String) :
    ∃ g, generate_ai_response cfg api backend user_message = .ok g ∧
      (∀ m t mt, backend = LLMBackend.openai m t mt →
        g.calls =
          [⟨m, buildMessages user_message (some cfg.persona.system_prompt),
            t, mt⟩]) := by
  cases backend with
  | openai m t mt =>
      cases h : api ⟨m,
          buildMessages user_message (some cfg.persona.system_prompt), t, mt⟩ with
      | error e =>
          simp only [generate_ai_response, LLMBackend.generate_response,
            OpenAIBackend.generate_response, pyTry, h]
          refine ⟨_, rfl, ?_⟩
          intro m' t' mt' hb
          injection hb with h1 h2 h3
          subst h1; subst h2; subst h3
          rfl
      | ok content =>
          simp only [generate_ai_response, LLMBackend.generate_response,
            OpenAIBackend.generate_response, pyTry, h]
          refine ⟨_, rfl, ?_⟩
          intro m' t' mt' hb
          injection hb with h1 h2 h3
          subst h1; subst h2; subst h3
          rfl
  | groq m t mt =>
      simp only [generate_ai_response, LLMBackend.generate_response,
        GroqBackend.generate_response, pyTry]
      refine ⟨_, rfl, ?_⟩
      intro m' t' mt' hb
      simp at hb
  | huggingface m t mt =>
      simp only [generate_ai_response, LLMBackend.generate_response,
        HuggingFaceBackend.generate_response, pyTry]
      refine ⟨_, rfl, ?_⟩
      intro m' t' mt' hb
      simp at hb

/-- Helper: the value of `handle_incoming_message` given the results of its
two callees. -/
theorem handle_incoming_message_eq (cfg : Config)
    (api : OpenAIRequest → Except PyExc String)
    (twilioCreate : TwilioRequest → Except PyExc TwilioMessage)
    (backend : LLMBackend) (user_message : String)
    (from_number : Option String) (g : GenResult) (s : SendResult)
    (hg : generate_ai_response cfg api backend user_message = .ok g)
    (hs : send_whatsapp_message cfg twilioCreate g.text from_number = .ok s) :
    handle_incoming_message cfg api twilioCreate backend user_message
        from_number
      = .ok ⟨[(LogLevel.info,
                "Received message: \x27" ++ pySlice user_message 50 ++ "...\x27")]
               ++ g.logs ++ s.logs ++
               (if s.delivered then
                  [(LogLevel.info, "Response sent successfully")]
                else [(LogLevel.error, "Failed to send response")]),
             g.calls, s.attempts⟩ := by
  simp only [handle_incoming_message, hg, hs]



/-- Claim C2: for every user message and configured fallback text, if the
underlying LLM provider call raises any exception, `OpenAIBackend.generate_response`
returns exactly the configured fallback text, logs the error, and does not
propagate the exception to its caller (the result is `.ok`, never `.error`). -/
theorem openai_generate_response_fallback_on_error (cfg : Config)
    (api : OpenAIRequest → Except PyExc String) (model : String)
    (temperature : Rat) (max_tokens : Nat) (message : String)
    (system_prompt : Option String) (e : PyExc)
    (h : api ⟨model, buildMessages message system_prompt, temperature,
        max_tokens⟩ = .error e) :
    OpenAIBackend.generate_response cfg api model temperature max_tokens
        message system_prompt
      = .ok ⟨cfg.settings.fallback_response,
             [(LogLevel.error, "OpenAI API error: " ++ e)],
             [⟨model, buildMessages message system_prompt, temperature,
               max_tokens⟩]⟩ := by
  simp only [OpenAIBackend.generate_response, pyTry, h]

/-- Witness for C2: a provider that raises "connection reset" makes the
OpenAI backend return the configured fallback text of `cfgEx` and log the
error. -/
theorem openai_generate_response_fallback_on_error_witness :
    OpenAIBackend.generate_response cfgEx (fun _ => Except.error "connection reset")
        "gpt-3.5-turbo" (7 / 10) 150 "hello"
        (some "You are a helpful assistant.")
      = .ok ⟨"Sorry, I am having trouble right now.",
             [(LogLevel.error, "OpenAI API error: connection reset")],
             [⟨"gpt-3.5-turbo",
               buildMessages "hello" (some "You are a helpful assistant."),
               7 / 10, 150⟩]⟩ :=
  openai_generate_response_fallback_on_error cfgEx
    (fun _ => Except.error "connection reset") "gpt-3.5-turbo" (7 / 10) 150
    "hello" (some "You are a helpful assistant.") "connection reset" rfl

/-- Claim C3: for every body and recipient, if the Twilio provider call
throws, `send_whatsapp_message` catches the exception, logs it, and returns
`False` (`delivered = false`); the result is `.ok`, so nothing is raised to
the caller. -/
theorem send_returns_false_on_provider_error (cfg : Config)
    (twilioCreate : TwilioRequest → Except PyExc TwilioMessage)
    (body : String) (to_number : Option String) (e : PyExc)
    (h : twilioCreate ⟨cfg.twilio.whatsapp_number, body,
        pyOrString to_number cfg.twilio.recipient_number⟩ = .error e) :
    send_whatsapp_message cfg twilioCreate body to_number
      = .ok ⟨false,
             [(LogLevel.error, "Failed to send WhatsApp message: " ++ e)],
             [⟨cfg.twilio.whatsapp_number, body,
               pyOrString to_number cfg.twilio.recipient_number⟩]⟩ := by
  simp only [send_whatsapp_message, pyTry, h]

/-- Witness for C3: a Twilio call raising "HTTP 401" yields
`delivered = false` with the error logged, for a concrete body and explicit
recipient. -/
theorem send_returns_false_on_provider_error_witness :
    send_whatsapp_message cfgEx (fun _ => Except.error "HTTP 401")
        "hello" (some "whatsapp:+15559998888")
      = .ok ⟨false,
             [(LogLevel.error, "Failed to send WhatsApp message: HTTP 401")],
             [⟨"whatsapp:+14155238886", "hello", "whatsapp:+15559998888"⟩]⟩ :=
  send_returns_false_on_provider_error cfgEx (fun _ => Except.error "HTTP 401")
    "hello" (some "whatsapp:+15559998888") "HTTP 401" rfl

/-- Claim C5: for every message and system prompt, the Groq and HuggingFace
backend variants return their fixed "not implemented" strings immediately:
no provider call is issued (`calls = []`), nothing is logged, and the result
is `.ok` (never a failure). -/
theorem stub_backends_return_fixed_string (cfg : Config)
    (api : OpenAIRequest → Except PyExc String) (model : String)
    (temperature : Rat) (max_tokens : Nat) (message : String)
    (system_prompt : Option String) :
    LLMBackend.generate_response cfg api
        (.groq model temperature max_tokens) message system_prompt
      = .ok ⟨"Groq backend not yet implemented. Please use OpenAI backend.",
             [], []⟩
  ∧ LLMBackend.generate_response cfg api
        (.huggingface model temperature max_tokens) message system_prompt
      = .ok ⟨"Hugging Face backend not yet implemented. Please use OpenAI backend.",
             [], []⟩ :=
  ⟨rfl, rfl⟩

/-- Claim C9: calling `send_whatsapp_message` with an empty-string recipient
behaves exactly like calling it with no recipient: Python `or` treats `""`
as absent, so the configured default recipient is used. -/
theorem send_empty_recipient_uses_default (cfg : Config)
    (twilioCreate : TwilioRequest → Except PyExc TwilioMessage)
    (body : String) :
    send_whatsapp_message cfg twilioCreate body (some "")
      = send_whatsapp_message cfg twilioCreate body none := rfl

/-- Claim C4: `get_llm_backend` compares the configured selector
case-insensitively (after `.lower()`): "openai" yields the OpenAI variant,
"groq" the Groq variant, "huggingface" the HuggingFace variant; any other
value logs a warning and falls back to the OpenAI variant, always with the
configured model, temperature and max_tokens. -/
theorem get_llm_backend_selection (cfg : Config) :
    (pyLower cfg.settings.llm_backend = "openai" →
        get_llm_backend cfg =
          (.openai cfg.settings.model cfg.persona.temperature
             cfg.persona.max_tokens, []))
  ∧ (pyLower cfg.settings.llm_backend = "groq" →
        get_llm_backend cfg =
          (.groq cfg.settings.model cfg.persona.temperature
             cfg.persona.max_tokens, []))
  ∧ (pyLower cfg.settings.llm_backend = "huggingface" →
        get_llm_backend cfg =
          (.huggingface cfg.settings.model cfg.persona.temperature
             cfg.persona.max_tokens, []))
  ∧ (pyLower cfg.settings.llm_backend ≠ "openai" →
     pyLower cfg.settings.llm_backend ≠ "groq" →
     pyLower cfg.settings.llm_backend ≠ "huggingface" →
        get_llm_backend cfg =
          (.openai cfg.settings.model cfg.persona.temperature
             cfg.persona.max_tokens,
           [(LogLevel.warning,
             "Unknown backend type: " ++ pyLower cfg.settings.llm_backend
               ++ ". Defaulting to OpenAI.")])) := by
  refine ⟨fun h => ?_, fun h => ?_, fun h => ?_, fun h1 h2 h3 => ?_⟩
  · simp [get_llm_backend, h]
  · simp [get_llm_backend, h]
  · simp [get_llm_backend, h]
  · simp [get_llm_backend, h1, h2, h3]

/-- Witness for C4: the four selector branches at concrete configurations,
including a mixed-case "OpenAI" selector and the unrecognized "mistral". -/
theorem get_llm_backend_selection_witness :
    get_llm_backend cfgCased = (.openai "gpt-3.5-turbo" (7 / 10) 150, [])
  ∧ get_llm_backend cfgGroq = (.groq "gpt-3.5-turbo" (7 / 10) 150, [])
  ∧ get_llm_backend cfgHF = (.huggingface "gpt-3.5-turbo" (7 / 10) 150, [])
  ∧ get_llm_backend cfgBad =
      (.openai "gpt-3.5-turbo" (7 / 10) 150,
       [(LogLevel.warning,
         "Unknown backend type: mistral. Defaulting to OpenAI.")]) :=
  ⟨(get_llm_backend_selection cfgCased).1 (by decide),
   (get_llm_backend_selection cfgGroq).2.1 (by decide),
   (get_llm_backend_selection cfgHF).2.2.1 (by decide),
   (get_llm_backend_selection cfgBad).2.2.2 (by decide) (by decide) (by decide)⟩

/-- Counterexample to Claim C6 as stated: the value returned by
`send_whatsapp_message` is identical for two providers whose successful
replies carry different message ids ("SM_AAAA" vs "SM_BBBB"), so the result
cannot carry any provider message id — the Python function returns the bare
boolean `True`, and the id at most appears in a log line. -/
theorem send_result_ignores_provider_sid :
    send_whatsapp_message cfgNoLog (fun _ => Except.ok ⟨"SM_AAAA", "OK"⟩)
        "OK" none
      = send_whatsapp_message cfgNoLog (fun _ => Except.ok ⟨"SM_BBBB", "OK"⟩)
        "OK" none := rfl

/-- Claim C6 (amended): when the Twilio provider call succeeds,
`send_whatsapp_message` returns `True` (`delivered = true`); the provider
message id is not part of the returned value — it appears only in the
success log entry, and only when logging is enabled — and when no recipient
is supplied the request goes to the configured default recipient. -/
theorem send_success_true_default_recipient (cfg : Config)
    (twilioCreate : TwilioRequest → Except PyExc TwilioMessage)
    (body : String) (m : TwilioMessage)
    (h : twilioCreate ⟨cfg.twilio.whatsapp_number, body,
        cfg.twilio.recipient_number⟩ = .ok m) :
    send_whatsapp_message cfg twilioCreate body none
      = .ok ⟨true,
             if cfg.settings.enable_logging then
               [(LogLevel.info,
                 "Sent message: " ++ pySlice m.body 50 ++ "... (SID: "
                   ++ m.sid ++ ")")]
             else [],
             [⟨cfg.twilio.whatsapp_number, body,
               cfg.twilio.recipient_number⟩]⟩ := by
  simp only [send_whatsapp_message, pyOrString, pyTry, h]

/-- Witness for C6 (amended): a successful provider call returning body "OK"
with id "SM123" makes `send("OK", None)` return `delivered = true`, sent to
the default recipient of `cfgEx`, with the id only in the log entry. -/
theorem send_success_true_default_recipient_witness :
    send_whatsapp_message cfgEx (fun _ => Except.ok ⟨"SM123", "OK"⟩) "OK" none
      = .ok ⟨true,
             [(LogLevel.info, "Sent message: OK... (SID: SM123)")],
             [⟨"whatsapp:+14155238886", "OK", "whatsapp:+15550001111"⟩]⟩ := by
  have h := send_success_true_default_recipient cfgEx
    (fun _ => Except.ok ⟨"SM123", "OK"⟩) "OK" ⟨"SM123", "OK"⟩ rfl
  simpa using h

/-- Claim C7: `load_persona_config` raises `FileNotFoundError` when the file
is missing and `json.JSONDecodeError` when it holds malformed JSON — in both
cases the result is `.error`, so no (partial) configuration document is
produced — and on success it returns the parsed document unchanged. -/
theorem load_persona_config_spec {α : Type}
    (readFile : String → Option String)
    (jsonParse : String → Except String α) (config_path : String) :
    (readFile config_path = none →
        load_persona_config readFile jsonParse config_path
          = (.error (.fileNotFoundError config_path),
             ["Error: Configuration file \x27" ++ config_path
                ++ "\x27 not found."]))
  ∧ (∀ content e, readFile config_path = some content →
        jsonParse content = .error e →
        load_persona_config readFile jsonParse config_path
          = (.error (.jsonDecodeError e),
             ["Error: Invalid JSON in configuration file \x27" ++ config_path
                ++ "\x27: " ++ e]))
  ∧ (∀ content a, readFile config_path = some content →
        jsonParse content = .ok a →
        load_persona_config readFile jsonParse config_path = (.ok a, [])) := by
  refine ⟨fun h => ?_, fun content e h1 h2 => ?_, fun content a h1 h2 => ?_⟩
  · simp only [load_persona_config, h]
  · simp only [load_persona_config, h1, h2]
  · simp only [load_persona_config, h1, h2]

/-- Witness for C7: with a concrete file system and JSON parser, the three
branches — missing file, malformed JSON, successful parse — produce exactly
the specified results. -/
theorem load_persona_config_spec_witness :
    load_persona_config readFileEx jsonParseEx "missing.json"
      = (.error (.fileNotFoundError "missing.json"),
         ["Error: Configuration file \x27missing.json\x27 not found."])
  ∧ load_persona_config readFileEx jsonParseEx "broken.json"
      = (.error (.jsonDecodeError "Expecting value: line 1 column 1 (char 0)"),
         ["Error: Invalid JSON in configuration file \x27broken.json\x27: Expecting value: line 1 column 1 (char 0)"])
  ∧ load_persona_config readFileEx jsonParseEx "persona_config.json"
      = (.ok 42, []) := by
  refine ⟨?_, ?_, ?_⟩
  · have h := (load_persona_config_spec readFileEx jsonParseEx
      "missing.json").1 (by decide)
    simpa using h
  · have h := (load_persona_config_spec readFileEx jsonParseEx
      "broken.json").2.1 "not json" "Expecting value: line 1 column 1 (char 0)"
      (by decide) rfl
    simpa using h
  · exact (load_persona_config_spec readFileEx jsonParseEx
      "persona_config.json").2.2 "42" 42 (by decide) rfl

/-- Counterexample to Claim C1 as stated: on the inbound text "hi" (a member
of the greeting set), the pipeline does NOT reply with a canned greeting
without invoking the LLM backend — `handle_incoming_message` contains no
greeting classifier at all, and with the OpenAI backend configured it issues
exactly one chat-completion request for the input "hi". -/
theorem handle_hi_invokes_llm_backend :
    Except.map (fun r => r.llmCalls.length)
      (handle_incoming_message cfgEx (fun _ => Except.ok "Hello there!")
        (fun _ => Except.ok ⟨"SM123", "Hello there!"⟩)
        (LLMBackend.openai "gpt-3.5-turbo" (7 / 10) 150) "hi" none)
      = .ok 1 := rfl

/-- Claim C1 (amended): the pipeline performs no greeting classification:
for every inbound text — greetings such as "hi"/"hello"/"hey" included — the
text is passed to the configured LLM backend for generation, the reply sent
is exactly the generated (or fallback) text, and under the OpenAI backend
every input triggers exactly one provider call. -/
theorem handle_routes_every_message_to_backend (cfg : Config)
    (api : OpenAIRequest → Except PyExc String)
    (twilioCreate : TwilioRequest → Except PyExc TwilioMessage)
    (backend : LLMBackend) (user_message : String)
    (from_number : Option String) :
    ∃ r g,
      handle_incoming_message cfg api twilioCreate backend user_message
          from_number = .ok r
      ∧ generate_ai_response cfg api backend user_message = .ok g
      ∧ r.sendAttempts.map TwilioRequest.body = [g.text]
      ∧ r.llmCalls = g.calls
      ∧ (∀ m t mt, backend = LLMBackend.openai m t mt →
          r.llmCalls.length = 1) := by
  obtain ⟨g, hg, hcalls⟩ := generate_ai_response_ok cfg api backend user_message
  obtain ⟨s, hs, hatt⟩ :=
    send_whatsapp_message_ok cfg twilioCreate g.text from_number
  refine ⟨_, g,
    handle_incoming_message_eq cfg api twilioCreate backend user_message
      from_number g s hg hs, hg, ?_, rfl, ?_⟩
  · show s.attempts.map TwilioRequest.body = [g.text]
    rw [hatt]
    rfl
  · intro m t mt hb
    show g.calls.length = 1
    rw [hcalls m t mt hb]
    rfl

/-- Witness for C1 (amended): at the concrete configuration `cfgEx` with the
OpenAI backend and inbound text "hi", the pipeline sends exactly the
generated text and makes exactly one LLM call. -/
theorem handle_routes_every_message_to_backend_witness :
    ∃ r g,
      handle_incoming_message cfgEx (fun _ => Except.ok "Hi! How can I help?")
          (fun _ => Except.ok ⟨"SM124", "Hi! How can I help?"⟩)
          (LLMBackend.openai "gpt-3.5-turbo" (7 / 10) 150) "hi" none = .ok r
      ∧ generate_ai_response cfgEx (fun _ => Except.ok "Hi! How can I help?")
          (LLMBackend.openai "gpt-3.5-turbo" (7 / 10) 150) "hi" = .ok g
      ∧ r.sendAttempts.map TwilioRequest.body = [g.text]
      ∧ r.llmCalls = g.calls
      ∧ r.llmCalls.length = 1 := by
  obtain ⟨r, g, h1, h2, h3, h4, h5⟩ :=
    handle_routes_every_message_to_backend cfgEx
      (fun _ => Except.ok "Hi! How can I help?")
      (fun _ => Except.ok ⟨"SM124", "Hi! How can I help?"⟩)
      (LLMBackend.openai "gpt-3.5-turbo" (7 / 10) 150) "hi" none
  exact ⟨r, g, h1, h2, h3, h4, h5 "gpt-3.5-turbo" (7 / 10) 150 rfl⟩

/-- Claim C8: once configuration is loaded, `handle_incoming_message` never
raises: for every configuration, every behaviour of the LLM and messaging
providers (including ones that always raise), every backend and every input,
the pipeline returns `.ok` — all provider failures are absorbed into
fallback values or a failure log inside the pipeline. -/
theorem handle_incoming_message_never_raises (cfg : Config)
    (api : OpenAIRequest → Except PyExc String)
    (twilioCreate : TwilioRequest → Except PyExc TwilioMessage)
    (backend : LLMBackend) (user_message : String)
    (from_number : Option String) :
    ∃ r, handle_incoming_message cfg api twilioCreate backend user_message
      from_number = .ok r := by
  obtain ⟨g, hg, -⟩ := generate_ai_response_ok cfg api backend user_message
  obtain ⟨s, hs, -⟩ :=
    send_whatsapp_message_ok cfg twilioCreate g.text from_number
  exact ⟨_, handle_incoming_message_eq cfg api twilioCreate backend
    user_message from_number g s hg hs⟩

/-- Claim C10: one invocation of `handle_incoming_message` performs exactly
one outbound send attempt, for every configuration, every provider
behaviour, every backend and every input — regardless of whether generation
fell back and regardless of the send outcome. -/
theorem handle_exactly_one_send_attempt (cfg : Config)
    (api : OpenAIRequest → Except PyExc String)
    (twilioCreate : TwilioRequest → Except PyExc TwilioMessage)
    (backend : LLMBackend) (user_message : String)
    (from_number : Option String) :
    ∃ r, handle_incoming_message cfg api twilioCreate backend user_message
        from_number = .ok r
      ∧ r.sendAttempts.length = 1 := by
  obtain ⟨g, hg, -⟩ := generate_ai_response_ok cfg api backend user_message
  obtain ⟨s, hs, hatt⟩ :=
    send_whatsapp_message_ok cfg twilioCreate g.text from_number
  refine ⟨_, handle_incoming_message_eq cfg api twilioCreate backend
    user_message from_number g s hg hs, ?_⟩
  show s.attempts.length = 1
  rw [hatt]
  rfl
